import Mathlib

/-!
# Verification of the Alexa request-decoding and directive-building core

Shallow embedding of the two source files of the repository
`alexa-skills-kit-for-go` (`alexa/request.go` and `alexa/audioplayer.go`)
together with the parts of the Go standard library (`encoding/json`,
`time.Parse`) and of the repository that the claims exercise.

Conventions of the embedding:
* decoded JSON values (Go `interface:=:`... i.e. `interface` holding
  decoded JSON) are the inductive `Json`;
* Go pointers that the claims observe (`*Session`, `*Context`,
  `*AudioItemMetadata`, `*DisplayImageObject`) are `Option` values; where
  Go mutates through a returned pointer, the composite program is modelled
  by explicit write-back, stated next to the definition;
* Go's `json.Unmarshal` keeps decoding after the first
  `UnmarshalTypeError` and returns that first error: each decoder returns
  `Option String × α` — the first error (if any) and the final state;
* `time.Time` instants are `Int` nanoseconds since the Unix epoch, as is
  the clock `now` (Go durations are integer nanoseconds and the
  `Seconds() < 30.0` comparison on whole-nanosecond durations is exact,
  so the strict integer comparison is faithful);
* `log.Println` diagnostics are returned as an explicit `List String`
  where a claim counts them, and dropped where no claim observes them.
-/

namespace Alexa

/-- A decoded JSON value, as produced by Go `json.Unmarshal` into
`interface` (objects become maps, arrays slices, numbers `float64`;
numbers are modelled as `Int`, the only numbers the claims use). -/
inductive Json where
  | null : Json
  | bool : Bool → Json
  | num : Int → Json
  | str : String → Json
  | arr : List Json → Json
  | obj : List (String × Json) → Json

/-- Go map lookup on a decoded JSON object: when the wire object held
duplicate keys the Go decoder kept the last one, so the lookup is
last-binding-wins. -/
def mapGet (fields : List (String × Json)) (k : String) : Option Json :=
  fields.foldl (fun acc kv => if kv.1 == k then some kv.2 else acc) none

/-! ## Data model (`alexa/request.go`) -/

/-- `Application` object with the applications unique id. -/
structure Application where
  applicationID : String
deriving DecidableEq

/-- `User` contains the userId and access token if existent. -/
structure User where
  userID : String
  accessToken : String
deriving DecidableEq

/-- `Session` object contained in standard request types. `Attributes`
is Go `map[string]interface` with decoded-JSON values, modelled as an
association list (a `nil` Go map is the empty list). -/
structure Session where
  new : Bool
  sessionID : String
  attributes : List (String × Json)
  application : Application
  user : User

/-- `Device` object providing information about the device used to send
the request. -/
structure Device where
  deviceID : String
  supportedInterfaces : List (String × Json)

/-- `System` object: current state of the Alexa service and the device. -/
structure System where
  apiAccessToken : String
  apiEndpoint : String
  application : Application
  device : Device
  user : User

/-- `AudioPlayer` object providing the current state for the AudioPlayer
interface. -/
structure AudioPlayer where
  token : String
  offsetInMilliseconds : Int
  playerActivity : String
deriving DecidableEq

/-- `Context` object describing the current state of the Alexa service
and device. -/
structure Context where
  system : System
  audioPlayer : AudioPlayer

/-- `RequestEnvelope` is the deserialized http post request sent by
Alexa. `Request` (`interface`) holds the still-untyped decoded payload. -/
structure RequestEnvelope where
  version : String
  session : Session
  request : Json
  context : Context

/-- `CommonRequest` contains the attributes all alexa requests have in
common. `Session`/`Context` are the injected (`*Session`/`*Context`)
references, set manually from the request envelope. -/
structure CommonRequest where
  type : String
  requestID : String
  timestamp : String
  locale : String
  session : Option Session
  context : Option Context

/-- `LaunchRequest` sent by Alexa if a skill is started; it embeds
`CommonRequest` and adds nothing. -/
structure LaunchRequest where
  commonRequest : CommonRequest

/-- `cr.setContext(ctx)` of `alexa/request.go`. -/
def CommonRequest.setContext (cr : CommonRequest) (ctx : Context) : CommonRequest :=
  { cr with context := some ctx }

/-- `cr.setSession(session)` of `alexa/request.go`. -/
def CommonRequest.setSession (cr : CommonRequest) (s : Session) : CommonRequest :=
  { cr with session := some s }

/-! ## Go `encoding/json` unmarshalling into the request structs

`json.Unmarshal` into a struct: a JSON object is decoded field by field
in wire order; an object key is matched against the struct's json tags
(field names for the untagged `Session`/`Context` fields), exact match
first and ASCII-case-insensitive otherwise; a mismatched value type
records the first error and decoding continues with the field left as it
was; JSON `null` into a non-pointer field is a no-op, into a pointer
field sets it to nil; decoding an object into a nil pointer allocates the
zero value first. A non-object, non-null document decoded into a struct
is a type error that leaves the struct untouched. -/

/-- ASCII lower-casing of one character. -/
def charLower (c : Char) : Char :=
  if c.toNat ≥ 65 ∧ c.toNat ≤ 90 then Char.ofNat (c.toNat + 32) else c

/-- ASCII lower-casing, for Go's case-insensitive field matching. -/
def asciiLower (s : String) : String := String.mk (s.data.map charLower)

/-- Go json field matching of wire key `k` against field tag/name
`name`: exact or ASCII-case-insensitive. -/
def keyMatches (k name : String) : Bool :=
  k == name || asciiLower k == asciiLower name

/-- Keep the first `UnmarshalTypeError` (Go `decodeState.saveError`). -/
def firstErr (e1 e2 : Option String) : Option String :=
  match e1 with
  | some e => some e
  | none => e2

/-- Decode a JSON value into a Go `string` field. -/
def decodeStringField (v : Json) (cur : String) : Option String × String :=
  match v with
  | .str s => (none, s)
  | .null => (none, cur)
  | _ => (some "json: cannot unmarshal value into Go value of type string", cur)

/-- Decode a JSON value into a Go `bool` field. -/
def decodeBoolField (v : Json) (cur : Bool) : Option String × Bool :=
  match v with
  | .bool b => (none, b)
  | .null => (none, cur)
  | _ => (some "json: cannot unmarshal value into Go value of type bool", cur)

/-- Decode a JSON value into a Go `int` field. -/
def decodeIntField (v : Json) (cur : Int) : Option String × Int :=
  match v with
  | .num n => (none, n)
  | .null => (none, cur)
  | _ => (some "json: cannot unmarshal value into Go value of type int", cur)

/-- Set key `k` to `v` in an association list modelling a Go map. -/
def assocSet (m : List (String × Json)) (k : String) (v : Json) : List (String × Json) :=
  match m with
  | [] => [(k, v)]
  | (k1, v1) :: rest => if k1 == k then (k, v) :: rest else (k1, v1) :: assocSet rest k v

/-- Decode a JSON value into a Go `map[string]interface` field: an
object merges its entries into the existing map (allocating if nil), a
null sets the map to nil. -/
def decodeMapField (v : Json) (cur : List (String × Json)) :
    Option String × List (String × Json) :=
  match v with
  | .obj fs => (none, fs.foldl (fun acc kv => assocSet acc kv.1 kv.2) cur)
  | .null => (none, [])
  | _ => (some "json: cannot unmarshal value into Go value of type map", cur)

/-- Decode a JSON value into an embedded struct field via the struct's
own field decoder `dec`. -/
def decodeStructWith {α : Type} (dec : List (String × Json) → α → Option String × α)
    (v : Json) (cur : α) : Option String × α :=
  match v with
  | .obj fs => dec fs cur
  | .null => (none, cur)
  | _ => (some "json: cannot unmarshal value into Go value of type struct", cur)

/-- Unmarshal object fields into an `Application` (tag `applicationId`). -/
def unmarshalApplication : List (String × Json) → Application → Option String × Application
  | [], a => (none, a)
  | (k, v) :: rest, a =>
    if keyMatches k "applicationId" then
      let r1 := decodeStringField v a.applicationID
      let r2 := unmarshalApplication rest { a with applicationID := r1.2 }
      (firstErr r1.1 r2.1, r2.2)
    else
      unmarshalApplication rest a

/-- Unmarshal object fields into a `User` (tags `userId`, `accessToken`). -/
def unmarshalUser : List (String × Json) → User → Option String × User
  | [], u => (none, u)
  | (k, v) :: rest, u =>
    if keyMatches k "userId" then
      let r1 := decodeStringField v u.userID
      let r2 := unmarshalUser rest { u with userID := r1.2 }
      (firstErr r1.1 r2.1, r2.2)
    else if keyMatches k "accessToken" then
      let r1 := decodeStringField v u.accessToken
      let r2 := unmarshalUser rest { u with accessToken := r1.2 }
      (firstErr r1.1 r2.1, r2.2)
    else
      unmarshalUser rest u

/-- Unmarshal object fields into a `Session` (tags `new`, `sessionId`,
`attributes`, `application`, `user`). -/
def unmarshalSession : List (String × Json) → Session → Option String × Session
  | [], s => (none, s)
  | (k, v) :: rest, s =>
    if keyMatches k "new" then
      let r1 := decodeBoolField v s.new
      let r2 := unmarshalSession rest { s with new := r1.2 }
      (firstErr r1.1 r2.1, r2.2)
    else if keyMatches k "sessionId" then
      let r1 := decodeStringField v s.sessionID
      let r2 := unmarshalSession rest { s with sessionID := r1.2 }
      (firstErr r1.1 r2.1, r2.2)
    else if keyMatches k "attributes" then
      let r1 := decodeMapField v s.attributes
      let r2 := unmarshalSession rest { s with attributes := r1.2 }
      (firstErr r1.1 r2.1, r2.2)
    else if keyMatches k "application" then
      let r1 := decodeStructWith unmarshalApplication v s.application
      let r2 := unmarshalSession rest { s with application := r1.2 }
      (firstErr r1.1 r2.1, r2.2)
    else if keyMatches k "user" then
      let r1 := decodeStructWith unmarshalUser v s.user
      let r2 := unmarshalSession rest { s with user := r1.2 }
      (firstErr r1.1 r2.1, r2.2)
    else
      unmarshalSession rest s

/-- Unmarshal object fields into a `Device` (tags `deviceId`,
`supportedInterfaces`). -/
def unmarshalDevice : List (String × Json) → Device → Option String × Device
  | [], d => (none, d)
  | (k, v) :: rest, d =>
    if keyMatches k "deviceId" then
      let r1 := decodeStringField v d.deviceID
      let r2 := unmarshalDevice rest { d with deviceID := r1.2 }
      (firstErr r1.1 r2.1, r2.2)
    else if keyMatches k "supportedInterfaces" then
      let r1 := decodeMapField v d.supportedInterfaces
      let r2 := unmarshalDevice rest { d with supportedInterfaces := r1.2 }
      (firstErr r1.1 r2.1, r2.2)
    else
      unmarshalDevice rest d

/-- Unmarshal object fields into a `System` (tags `apiAccessToken`,
`apiEndpoint`, `application`, `device`, `user`). -/
def unmarshalSystem : List (String × Json) → System → Option String × System
  | [], s => (none, s)
  | (k, v) :: rest, s =>
    if keyMatches k "apiAccessToken" then
      let r1 := decodeStringField v s.apiAccessToken
      let r2 := unmarshalSystem rest { s with apiAccessToken := r1.2 }
      (firstErr r1.1 r2.1, r2.2)
    else if keyMatches k "apiEndpoint" then
      let r1 := decodeStringField v s.apiEndpoint
      let r2 := unmarshalSystem rest { s with apiEndpoint := r1.2 }
      (firstErr r1.1 r2.1, r2.2)
    else if keyMatches k "application" then
      let r1 := decodeStructWith unmarshalApplication v s.application
      let r2 := unmarshalSystem rest { s with application := r1.2 }
      (firstErr r1.1 r2.1, r2.2)
    else if keyMatches k "device" then
      let r1 := decodeStructWith unmarshalDevice v s.device
      let r2 := unmarshalSystem rest { s with device := r1.2 }
      (firstErr r1.1 r2.1, r2.2)
    else if keyMatches k "user" then
      let r1 := decodeStructWith unmarshalUser v s.user
      let r2 := unmarshalSystem rest { s with user := r1.2 }
      (firstErr r1.1 r2.1, r2.2)
    else
      unmarshalSystem rest s

/-- Unmarshal object fields into an `AudioPlayer` state (tags `token`,
`offsetInMilliseconds`, `playerActivity`). -/
def unmarshalAudioPlayer : List (String × Json) → AudioPlayer → Option String × AudioPlayer
  | [], a => (none, a)
  | (k, v) :: rest, a =>
    if keyMatches k "token" then
      let r1 := decodeStringField v a.token
      let r2 := unmarshalAudioPlayer rest { a with token := r1.2 }
      (firstErr r1.1 r2.1, r2.2)
    else if keyMatches k "offsetInMilliseconds" then
      let r1 := decodeIntField v a.offsetInMilliseconds
      let r2 := unmarshalAudioPlayer rest { a with offsetInMilliseconds := r1.2 }
      (firstErr r1.1 r2.1, r2.2)
    else if keyMatches k "playerActivity" then
      let r1 := decodeStringField v a.playerActivity
      let r2 := unmarshalAudioPlayer rest { a with playerActivity := r1.2 }
      (firstErr r1.1 r2.1, r2.2)
    else
      unmarshalAudioPlayer rest a

/-- Unmarshal object fields into a `Context` (tags `System`,
`audioPlayer`). -/
def unmarshalContext : List (String × Json) → Context → Option String × Context
  | [], c => (none, c)
  | (k, v) :: rest, c =>
    if keyMatches k "System" then
      let r1 := decodeStructWith unmarshalSystem v c.system
      let r2 := unmarshalContext rest { c with system := r1.2 }
      (firstErr r1.1 r2.1, r2.2)
    else if keyMatches k "audioPlayer" then
      let r1 := decodeStructWith unmarshalAudioPlayer v c.audioPlayer
      let r2 := unmarshalContext rest { c with audioPlayer := r1.2 }
      (firstErr r1.1 r2.1, r2.2)
    else
      unmarshalContext rest c

/-- The Go zero value of `Session`, allocated when decoding an object
into a nil `*Session`. -/
def zeroSession : Session :=
  { new := false, sessionID := "", attributes := [],
    application := { applicationID := "" },
    user := { userID := "", accessToken := "" } }

/-- The Go zero value of `Context`. -/
def zeroContext : Context :=
  { system :=
      { apiAccessToken := "", apiEndpoint := "",
        application := { applicationID := "" },
        device := { deviceID := "", supportedInterfaces := [] },
        user := { userID := "", accessToken := "" } },
    audioPlayer := { token := "", offsetInMilliseconds := 0, playerActivity := "" } }

/-- Decode a JSON value into a `*Session` field: null sets the pointer
to nil; an object decodes into the pointee (allocating the zero value
if the pointer is nil); any other value allocates through a nil pointer
and then fails with a type error. -/
def decodeSessionPointer (v : Json) (cur : Option Session) : Option String × Option Session :=
  match v with
  | .null => (none, none)
  | .obj fs =>
    let r := unmarshalSession fs (cur.getD zeroSession)
    (r.1, some r.2)
  | _ => (some "json: cannot unmarshal value into Go value of type alexa.Session",
          some (cur.getD zeroSession))

/-- Decode a JSON value into a `*Context` field (same pointer rules as
`decodeSessionPointer`). -/
def decodeContextPointer (v : Json) (cur : Option Context) : Option String × Option Context :=
  match v with
  | .null => (none, none)
  | .obj fs =>
    let r := unmarshalContext fs (cur.getD zeroContext)
    (r.1, some r.2)
  | _ => (some "json: cannot unmarshal value into Go value of type alexa.Context",
          some (cur.getD zeroContext))

/-- The fields of `LaunchRequest` visible to the json decoder, i.e. the
promoted fields of the embedded `CommonRequest`: the tagged `type`,
`requestId`, `timestamp`, `locale` and the untagged `Session`,
`Context`. -/
inductive LaunchField where
  | typeField
  | requestIDField
  | timestampField
  | localeField
  | sessionField
  | contextField
deriving DecidableEq

/-- Go's field resolution for a wire key against `LaunchRequest`:
fields are tried in declaration order, matching the json tag (or the
field name when untagged) exactly or ASCII-case-insensitively; an
unknown key is ignored. -/
def launchFieldOf (k : String) : Option LaunchField :=
  if keyMatches k "type" then some .typeField
  else if keyMatches k "requestId" then some .requestIDField
  else if keyMatches k "timestamp" then some .timestampField
  else if keyMatches k "locale" then some .localeField
  else if keyMatches k "Session" then some .sessionField
  else if keyMatches k "Context" then some .contextField
  else none

/-- Decode one wire object entry into a `LaunchRequest`. -/
def launchStep (k : String) (v : Json) (r : LaunchRequest) : Option String × LaunchRequest :=
  match launchFieldOf k with
  | some .typeField =>
    let d := decodeStringField v r.commonRequest.type
    (d.1, { commonRequest := { r.commonRequest with type := d.2 } })
  | some .requestIDField =>
    let d := decodeStringField v r.commonRequest.requestID
    (d.1, { commonRequest := { r.commonRequest with requestID := d.2 } })
  | some .timestampField =>
    let d := decodeStringField v r.commonRequest.timestamp
    (d.1, { commonRequest := { r.commonRequest with timestamp := d.2 } })
  | some .localeField =>
    let d := decodeStringField v r.commonRequest.locale
    (d.1, { commonRequest := { r.commonRequest with locale := d.2 } })
  | some .sessionField =>
    let d := decodeSessionPointer v r.commonRequest.session
    (d.1, { commonRequest := { r.commonRequest with session := d.2 } })
  | some .contextField =>
    let d := decodeContextPointer v r.commonRequest.context
    (d.1, { commonRequest := { r.commonRequest with context := d.2 } })
  | none => (none, r)

/-- Decode the entries of a wire object into a `LaunchRequest`, in wire
order, keeping the first error and continuing. -/
def unmarshalLaunchFields : List (String × Json) → LaunchRequest → Option String × LaunchRequest
  | [], r => (none, r)
  | (k, v) :: rest, r =>
    let s := launchStep k v r
    let t := unmarshalLaunchFields rest s.2
    (firstErr s.1 t.1, t.2)

/-- `json.Unmarshal(data, ...)` into a `LaunchRequest`: an object
decodes field-wise, null is a no-op, anything else is a type error that
leaves the struct untouched. -/
def unmarshalLaunch (data : Json) (r : LaunchRequest) : Option String × LaunchRequest :=
  match data with
  | .obj fs => unmarshalLaunchFields fs r
  | .null => (none, r)
  | _ => (some "json: cannot unmarshal value into Go value of type alexa.LaunchRequest", r)

/-- `requestEnvelope.getTypedRequest(requestObj)` of `alexa/request.go`,
instantiated at the `LaunchRequest` variant: marshals the generic
`Request` payload (for a decoded-JSON payload, marshalling and
re-parsing reproduce the same JSON value), injects the envelope's
Context and Session through the `requestEnvelopeDataProvider` interface,
and only then unmarshals the payload into the variant. The returned
pair is Go's returned error together with the final state of the
caller's object (which Go mutates in place, error or not). -/
def getTypedRequest (env : RequestEnvelope) (requestObj : LaunchRequest) :
    Option String × LaunchRequest :=
  let data := env.request
  let withCtx : LaunchRequest :=
    { commonRequest := requestObj.commonRequest.setContext env.context }
  let withSession : LaunchRequest :=
    { commonRequest := withCtx.commonRequest.setSession env.session }
  unmarshalLaunch data withSession

/-! ## `time.Parse` with layout `2006-01-02T15:04:05Z` and `verifyTimestamp`

In this layout the trailing `Z` is a literal (it is not one of Go's
zone chunks), so `time.Parse` accepts exactly
`YYYY-MM-DDThh:mm:ss`, then — a special case of Go's parser when the
layout has no fractional-second chunk — an optional fractional second
written as `.` or `,` followed by at least one digit (all digits are
consumed; the first nine are kept and scaled to nanoseconds), then the
literal `Z`. It range-checks month, day (against the month length,
leap years included), hour, minute and second, and interprets the
result as a UTC instant. -/

/-- Numeric value of an ASCII digit. -/
def digitVal (c : Char) : Option Int :=
  if c.isDigit then some (Int.ofNat (c.toNat - 48)) else none

/-- Two-digit zero-padded number, as Go `getnum` with a zero-pad layout. -/
def num2 (a b : Char) : Option Int := do
  let x ← digitVal a
  let y ← digitVal b
  pure (10 * x + y)

/-- Four-digit year, as Go's `stdLongYear`. -/
def num4 (a b c d : Char) : Option Int := do
  let x ← num2 a b
  let y ← num2 c d
  pure (100 * x + y)

/-- Gregorian leap year (Go `isLeap`). -/
def isLeapYear (y : Int) : Bool :=
  y % 4 == 0 && (y % 100 != 0 || y % 400 == 0)

/-- Days in a month (Go `daysIn`). -/
def daysIn (m y : Int) : Int :=
  if m == 2 then (if isLeapYear y then 29 else 28)
  else if m == 4 || m == 6 || m == 9 || m == 11 then 30
  else 31

/-- Days from the civil epoch 1970-01-01 to year/month/day, proleptic
Gregorian (the standard days-from-civil computation; both division
semantics agree on the guarded operands for the parser's year range). -/
def daysFromCivil (y m d : Int) : Int :=
  let y1 := if m ≤ 2 then y - 1 else y
  let era := (if 0 ≤ y1 then y1 else y1 - 399) / 400
  let yoe := y1 - era * 400
  let mp := (m + 9) % 12
  let doy := (153 * mp + 2) / 5 + d - 1
  let doe := yoe * 365 + yoe / 4 - yoe / 100 + doy
  era * 146097 + doe - 719468

/-- Unix seconds of a UTC civil date-time. -/
def epochSeconds (y m d h mi s : Int) : Int :=
  daysFromCivil y m d * 86400 + h * 3600 + mi * 60 + s

/-- Unix seconds of Go's zero `time.Time` (January 1, year 1, UTC),
the value `time.Parse` leaves behind on failure. -/
def goZeroSeconds : Int := epochSeconds 1 1 1 0 0 0

/-- Nanoseconds from the fractional-second digits: Go's
`parseNanoseconds` keeps at most the first nine digits (though all are
consumed from the input) and scales them up to nanoseconds. -/
def fracNanos (ds : List Char) : Int :=
  let taken := ds.take 9
  let v := taken.foldl (fun acc c => 10 * acc + Int.ofNat (c.toNat - 48)) 0
  v * (10 : Int) ^ (9 - taken.length)

/-- The tail of the value after the two seconds digits: either the
literal `Z` alone, or — Go's special case when the layout has no
fractional-second chunk but the value carries one — a `.` or `,`
followed by at least one digit, all digits consumed, then the literal
`Z`. Returns the fractional nanoseconds. -/
def parseTail (cs : List Char) : Option Int :=
  match cs with
  | ['Z'] => some 0
  | c :: c2 :: rest =>
    if (c = '.' ∨ c = ',') ∧ c2.isDigit = true then
      match (c2 :: rest).dropWhile Char.isDigit with
      | ['Z'] => some (fracNanos ((c2 :: rest).takeWhile Char.isDigit))
      | _ => none
    else none
  | _ => none

/-- `time.Parse("2006-01-02T15:04:05Z", s)`: `some` Unix nanoseconds on
success (fractional seconds included), `none` on a parse error. -/
def parseTimestamp (s : String) : Option Int :=
  match s.toList with
  | y1 :: y2 :: y3 :: y4 :: '-' :: m1 :: m2 :: '-' :: d1 :: d2 :: 'T' ::
    h1 :: h2 :: ':' :: n1 :: n2 :: ':' :: s1 :: s2 :: tail => do
    let y ← num4 y1 y2 y3 y4
    let mo ← num2 m1 m2
    let d ← num2 d1 d2
    let h ← num2 h1 h2
    let mi ← num2 n1 n2
    let se ← num2 s1 s2
    let ns ← parseTail tail
    if mo < 1 || 12 < mo then none
    else if d < 1 || daysIn mo y < d then none
    else if 24 ≤ h then none
    else if 60 ≤ mi then none
    else if 60 ≤ se then none
    else some (epochSeconds y mo d h mi se * 1000000000 + ns)
  | _ => none

/-- The freshness comparison of `verifyTimestamp`:
`time.Since(requestTimestamp).Seconds() < 30`, on the timestamp that
`time.Parse` produced (its zero value after a parse failure, which is
logged and otherwise ignored). `nowNs` is the wall clock in nanoseconds
since the Unix epoch. -/
def timestampFresh (s : String) (nowNs : Int) : Bool :=
  let t := (parseTimestamp s).getD (goZeroSeconds * 1000000000)
  decide (nowNs - t < 30 * 1000000000)

/-- `requestEnvelope.verifyTimestamp()` of `alexa/request.go`. The Go
body begins with the unchecked type assertions
`Request.(map[string]interface{...})["timestamp"].(string)`: when the
payload is not a decoded JSON object, or has no `timestamp` key, or its
`timestamp` is not a string, the assertion panics — modelled as `none`.
Otherwise `some` of the freshness verdict. -/
def verifyTimestamp (env : RequestEnvelope) (nowNs : Int) : Option Bool :=
  match env.request with
  | .obj fields =>
    match mapGet fields "timestamp" with
    | some (.str s) => some (timestampFresh s nowNs)
    | _ => none
  | _ => none

/-- Whether the payload is a JSON object whose `timestamp` entry is a
string — exactly the domain on which `verifyTimestamp`'s type
assertions succeed. -/
def hasStringTimestamp (j : Json) : Bool :=
  match j with
  | .obj fields =>
    match mapGet fields "timestamp" with
    | some (.str _) => true
    | _ => false
  | _ => false

/-! ## AudioPlayer directives (`alexa/audioplayer.go`) -/

/-- Modelled from the spec: `DisplayImageObject` is declared in a file
of the repository that is not part of the covered source; the spec
describes it as an image descriptor carrying a content description
(further image source variants are attached externally and unobserved
here). -/
structure DisplayImageObject where
  contentDescription : String
deriving DecidableEq

/-- `AudioItemMetadata`: metadata about the audio to be displayed.
`Art` and `BackgroundImage` are `*DisplayImageObject` pointers. -/
structure AudioItemMetadata where
  title : String
  subtitle : String
  art : Option DisplayImageObject
  backgroundImage : Option DisplayImageObject
deriving DecidableEq

/-- The anonymous `Stream` struct nested in
`AudioPlayerPlayDirective.AudioItem` (tags `url`, `token`,
`expectedPreviousToken,omitempty`, `offsetInMilliseconds`). -/
structure Stream where
  url : String
  token : String
  expectedPreviousToken : String
  offsetInMilliseconds : Int
deriving DecidableEq

/-- The anonymous `AudioItem` struct of `AudioPlayerPlayDirective`
(tags `stream`, `metadata,omitempty` with `Metadata` a pointer). -/
structure AudioItem where
  stream : Stream
  metadata : Option AudioItemMetadata
deriving DecidableEq

/-- `AudioPlayerPlayDirective` (tags `type`, `playBehavior`,
`audioItem`). -/
structure AudioPlayerPlayDirective where
  type : String
  playBehavior : String
  audioItem : AudioItem
deriving DecidableEq

/-- `AudioPlayerStopDirective` (tag `type`). -/
structure AudioPlayerStopDirective where
  type : String
deriving DecidableEq

/-- `AudioPlayerClearQueueDirective` (tags `type`, `clearBehavior`). -/
structure AudioPlayerClearQueueDirective where
  type : String
  clearBehavior : String
deriving DecidableEq

/-- The Go zero value of the nested `AudioItem`, as left by the
`AudioPlayerPlayDirective` literal that only sets `Type` and
`PlayBehavior`. -/
def zeroAudioItem : AudioItem :=
  { stream := { url := "", token := "", expectedPreviousToken := "",
                offsetInMilliseconds := 0 },
    metadata := none }

/-- A directive held in a Response's directive sequence (Go appends the
directive pointers to the response; the claims only observe the three
AudioPlayer directive kinds). -/
inductive Directive where
  | play : AudioPlayerPlayDirective → Directive
  | stop : AudioPlayerStopDirective → Directive
  | clearQueue : AudioPlayerClearQueueDirective → Directive
deriving DecidableEq

/-- Modelled from the spec: the `Response` container is declared in a
file of the repository that is not part of the covered source; the spec
describes it as an outbound container holding an ordered sequence of
directive objects. Only the directive sequence is modelled. -/
structure Response where
  directives : List Directive
deriving DecidableEq

/-- Modelled from the spec: `Response.AddDirective` appends a directive
to the end of the response's ordered directive sequence. -/
def Response.addDirective (r : Response) (d : Directive) : Response :=
  { r with directives := r.directives ++ [d] }

/-- `r.AddAudioPlayerPlayDirective(playBehavior)`: builds a Play
directive with type `AudioPlayer.Play`, appends it and returns it. -/
def AddAudioPlayerPlayDirective (r : Response) (playBehavior : String) :
    Response × AudioPlayerPlayDirective :=
  let playDirective : AudioPlayerPlayDirective :=
    { type := "AudioPlayer.Play", playBehavior := playBehavior,
      audioItem := zeroAudioItem }
  (r.addDirective (.play playDirective), playDirective)

/-- `d.SetAudioItemStream(url, token, expectedPreviousToken,
offsetInMilliseconds)`: sets the stream attributes of the play
directive's audio item. -/
def SetAudioItemStream (d : AudioPlayerPlayDirective)
    (url token expectedPreviousToken : String) (offsetInMilliseconds : Int) :
    AudioPlayerPlayDirective :=
  { d with audioItem :=
    { d.audioItem with stream :=
      { url := url, token := token,
        expectedPreviousToken := expectedPreviousToken,
        offsetInMilliseconds := offsetInMilliseconds } } }

/-- `d.SetAudioItemMetadata(title, subtitle)`: allocates a fresh
metadata object with the given title and subtitle, stores it in the
directive and returns it. The returned metadata is the very object the
directive references, so a later in-place update of it is an update of
`d.AudioItem.Metadata` (made explicit in `metadataArtChain`). -/
def SetAudioItemMetadata (d : AudioPlayerPlayDirective) (title subtitle : String) :
    AudioPlayerPlayDirective × AudioItemMetadata :=
  let m : AudioItemMetadata :=
    { title := title, subtitle := subtitle, art := none, backgroundImage := none }
  ({ d with audioItem := { d.audioItem with metadata := some m } }, m)

/-- `m.SetArtImage(contentDescription)`: allocates an image descriptor,
stores it as the metadata's art (mutating `m` in place) and returns
it. -/
def SetArtImage (m : AudioItemMetadata) (contentDescription : String) :
    AudioItemMetadata × DisplayImageObject :=
  let art : DisplayImageObject := { contentDescription := contentDescription }
  ({ m with art := some art }, art)

/-- `m.SetBackgroundImage(contentDescription)`: allocates an image
descriptor, stores it as the metadata's background image and returns
it. -/
def SetBackgroundImage (m : AudioItemMetadata) (contentDescription : String) :
    AudioItemMetadata × DisplayImageObject :=
  let img : DisplayImageObject := { contentDescription := contentDescription }
  ({ m with backgroundImage := some img }, img)

/-- The Go chain `m := d.SetAudioItemMetadata(title, subtitle);
m.SetArtImage(desc)`: `SetArtImage` mutates the metadata object in
place, and that object is the one referenced by
`d.AudioItem.Metadata`, so after the chain the directive holds the
updated metadata — the write-back below is that pointer aliasing made
explicit. -/
def metadataArtChain (d : AudioPlayerPlayDirective) (title subtitle desc : String) :
    AudioPlayerPlayDirective :=
  let s := SetAudioItemMetadata d title subtitle
  let a := SetArtImage s.2 desc
  { s.1 with audioItem := { s.1.audioItem with metadata := some a.1 } }

/-- `r.AddAudioPlayerStopDirective()`: builds a Stop directive with
type `AudioPlayer.Stop`, appends it and returns it. -/
def AddAudioPlayerStopDirective (r : Response) :
    Response × AudioPlayerStopDirective :=
  let stopDirective : AudioPlayerStopDirective := { type := "AudioPlayer.Stop" }
  (r.addDirective (.stop stopDirective), stopDirective)

/-- The diagnostic text logged for an unrecognized clearBehavior. -/
def invalidClearBehaviorStr : String :=
  "Invalid/ Unknown clearBehavior for ClearQueue directive!"

/-- `r.AddAudioPlayerClearQueueDirective(clearBehavior)`: logs one
diagnostic if `clearBehavior` is neither `CLEAR_ENQUEUED` nor
`CLEAR_ALL`, then unconditionally builds the directive with the
caller-supplied value, appends it and returns it. The third component
collects the `log.Println` diagnostics the call emits. -/
def AddAudioPlayerClearQueueDirective (r : Response) (clearBehavior : String) :
    Response × AudioPlayerClearQueueDirective × List String :=
  let logs : List String :=
    if clearBehavior ≠ "CLEAR_ENQUEUED" ∧ clearBehavior ≠ "CLEAR_ALL" then
      [invalidClearBehaviorStr]
    else []
  let clearQueueDirective : AudioPlayerClearQueueDirective :=
    { type := "AudioPlayer.ClearQueue", clearBehavior := clearBehavior }
  (r.addDirective (.clearQueue clearQueueDirective), clearQueueDirective, logs)

/-! ## Go `encoding/json` marshalling of a Play directive

`json.Marshal` of `AudioPlayerPlayDirective` emits the struct fields in
declaration order under their json tags; `omitempty` drops an empty
string and a nil pointer. -/

/-- Marshal a `DisplayImageObject` (modelled from the spec, tag
`contentDescription`). -/
def marshalDisplayImageObject (x : DisplayImageObject) : Json :=
  .obj [("contentDescription", .str x.contentDescription)]

/-- Marshal an `AudioItemMetadata` (tags `title,omitempty`,
`subtitle,omitempty`, `art,omitempty`, `backgroundImage,omitempty`). -/
def marshalMetadata (m : AudioItemMetadata) : Json :=
  .obj ((if m.title = "" then [] else [("title", Json.str m.title)]) ++
        (if m.subtitle = "" then [] else [("subtitle", Json.str m.subtitle)]) ++
        (match m.art with
         | none => []
         | some a => [("art", marshalDisplayImageObject a)]) ++
        (match m.backgroundImage with
         | none => []
         | some b => [("backgroundImage", marshalDisplayImageObject b)]))

/-- Marshal the nested stream struct (tags `url`, `token`,
`expectedPreviousToken,omitempty`, `offsetInMilliseconds`). -/
def marshalStream (s : Stream) : Json :=
  .obj ([("url", Json.str s.url), ("token", Json.str s.token)] ++
        (if s.expectedPreviousToken = "" then []
         else [("expectedPreviousToken", Json.str s.expectedPreviousToken)]) ++
        [("offsetInMilliseconds", Json.num s.offsetInMilliseconds)])

/-- Marshal the nested audio item struct (tags `stream`,
`metadata,omitempty`). -/
def marshalAudioItem (a : AudioItem) : Json :=
  .obj ([("stream", marshalStream a.stream)] ++
        (match a.metadata with
         | none => []
         | some m => [("metadata", marshalMetadata m)]))

/-- `json.Marshal` of an `AudioPlayerPlayDirective` (tags `type`,
`playBehavior`, `audioItem`). -/
def marshalPlayDirective (d : AudioPlayerPlayDirective) : Json :=
  .obj [("type", Json.str d.type),
        ("playBehavior", Json.str d.playBehavior),
        ("audioItem", marshalAudioItem d.audioItem)]

/-! ## Go `encoding/json` unmarshalling of a Play directive -/

/-- Unmarshal object fields into a `DisplayImageObject` (modelled from
the spec, tag `contentDescription`). -/
def unmarshalDisplayImageObject :
    List (String × Json) → DisplayImageObject → Option String × DisplayImageObject
  | [], x => (none, x)
  | (k, v) :: rest, x =>
    if keyMatches k "contentDescription" then
      let r1 := decodeStringField v x.contentDescription
      let r2 := unmarshalDisplayImageObject rest { x with contentDescription := r1.2 }
      (firstErr r1.1 r2.1, r2.2)
    else
      unmarshalDisplayImageObject rest x

/-- Decode a JSON value into a `*DisplayImageObject` field. -/
def decodeImagePointer (v : Json) (cur : Option DisplayImageObject) :
    Option String × Option DisplayImageObject :=
  match v with
  | .null => (none, none)
  | .obj fs =>
    let r := unmarshalDisplayImageObject fs (cur.getD { contentDescription := "" })
    (r.1, some r.2)
  | _ => (some "json: cannot unmarshal value into Go value of type alexa.DisplayImageObject",
          some (cur.getD { contentDescription := "" }))

/-- Unmarshal object fields into an `AudioItemMetadata`. -/
def unmarshalMetadata :
    List (String × Json) → AudioItemMetadata → Option String × AudioItemMetadata
  | [], m => (none, m)
  | (k, v) :: rest, m =>
    if keyMatches k "title" then
      let r1 := decodeStringField v m.title
      let r2 := unmarshalMetadata rest { m with title := r1.2 }
      (firstErr r1.1 r2.1, r2.2)
    else if keyMatches k "subtitle" then
      let r1 := decodeStringField v m.subtitle
      let r2 := unmarshalMetadata rest { m with subtitle := r1.2 }
      (firstErr r1.1 r2.1, r2.2)
    else if keyMatches k "art" then
      let r1 := decodeImagePointer v m.art
      let r2 := unmarshalMetadata rest { m with art := r1.2 }
      (firstErr r1.1 r2.1, r2.2)
    else if keyMatches k "backgroundImage" then
      let r1 := decodeImagePointer v m.backgroundImage
      let r2 := unmarshalMetadata rest { m with backgroundImage := r1.2 }
      (firstErr r1.1 r2.1, r2.2)
    else
      unmarshalMetadata rest m

/-- Decode a JSON value into the `*AudioItemMetadata` field. -/
def decodeMetadataPointer (v : Json) (cur : Option AudioItemMetadata) :
    Option String × Option AudioItemMetadata :=
  match v with
  | .null => (none, none)
  | .obj fs =>
    let r := unmarshalMetadata fs
      (cur.getD { title := "", subtitle := "", art := none, backgroundImage := none })
    (r.1, some r.2)
  | _ => (some "json: cannot unmarshal value into Go value of type alexa.AudioItemMetadata",
          some (cur.getD { title := "", subtitle := "", art := none, backgroundImage := none }))

/-- Unmarshal object fields into the nested stream struct. -/
def unmarshalStream : List (String × Json) → Stream → Option String × Stream
  | [], s => (none, s)
  | (k, v) :: rest, s =>
    if keyMatches k "url" then
      let r1 := decodeStringField v s.url
      let r2 := unmarshalStream rest { s with url := r1.2 }
      (firstErr r1.1 r2.1, r2.2)
    else if keyMatches k "token" then
      let r1 := decodeStringField v s.token
      let r2 := unmarshalStream rest { s with token := r1.2 }
      (firstErr r1.1 r2.1, r2.2)
    else if keyMatches k "expectedPreviousToken" then
      let r1 := decodeStringField v s.expectedPreviousToken
      let r2 := unmarshalStream rest { s with expectedPreviousToken := r1.2 }
      (firstErr r1.1 r2.1, r2.2)
    else if keyMatches k "offsetInMilliseconds" then
      let r1 := decodeIntField v s.offsetInMilliseconds
      let r2 := unmarshalStream rest { s with offsetInMilliseconds := r1.2 }
      (firstErr r1.1 r2.1, r2.2)
    else
      unmarshalStream rest s

/-- Unmarshal object fields into the nested audio item struct. -/
def unmarshalAudioItem : List (String × Json) → AudioItem → Option String × AudioItem
  | [], a => (none, a)
  | (k, v) :: rest, a =>
    if keyMatches k "stream" then
      let r1 := decodeStructWith unmarshalStream v a.stream
      let r2 := unmarshalAudioItem rest { a with stream := r1.2 }
      (firstErr r1.1 r2.1, r2.2)
    else if keyMatches k "metadata" then
      let r1 := decodeMetadataPointer v a.metadata
      let r2 := unmarshalAudioItem rest { a with metadata := r1.2 }
      (firstErr r1.1 r2.1, r2.2)
    else
      unmarshalAudioItem rest a

/-- Unmarshal object fields into an `AudioPlayerPlayDirective`. -/
def unmarshalPlayFields :
    List (String × Json) → AudioPlayerPlayDirective → Option String × AudioPlayerPlayDirective
  | [], d => (none, d)
  | (k, v) :: rest, d =>
    if keyMatches k "type" then
      let r1 := decodeStringField v d.type
      let r2 := unmarshalPlayFields rest { d with type := r1.2 }
      (firstErr r1.1 r2.1, r2.2)
    else if keyMatches k "playBehavior" then
      let r1 := decodeStringField v d.playBehavior
      let r2 := unmarshalPlayFields rest { d with playBehavior := r1.2 }
      (firstErr r1.1 r2.1, r2.2)
    else if keyMatches k "audioItem" then
      let r1 := decodeStructWith unmarshalAudioItem v d.audioItem
      let r2 := unmarshalPlayFields rest { d with audioItem := r1.2 }
      (firstErr r1.1 r2.1, r2.2)
    else
      unmarshalPlayFields rest d

/-- `json.Unmarshal` into an `AudioPlayerPlayDirective`. -/
def unmarshalPlayDirective (data : Json) (d : AudioPlayerPlayDirective) :
    Option String × AudioPlayerPlayDirective :=
  match data with
  | .obj fs => unmarshalPlayFields fs d
  | .null => (none, d)
  | _ => (some "json: cannot unmarshal value into Go value of type alexa.AudioPlayerPlayDirective", d)

/-- The Go zero value of `AudioPlayerPlayDirective`, the re-parse
target of the round-trip. -/
def zeroPlayDirective : AudioPlayerPlayDirective :=
  { type := "", playBehavior := "", audioItem := zeroAudioItem }

/-! ## Auxiliary predicates and sample values -/

/-- Whether a JSON document is neither an object nor null — exactly the
documents whose unmarshalling into a struct is a type error that leaves
the struct untouched. -/
def isPrimitivePayload (j : Json) : Bool :=
  match j with
  | .obj _ => false
  | .null => false
  | _ => true

/-- Whether a JSON value is null. -/
def Json.isNull : Json → Bool
  | .null => true
  | _ => false

/-- Whether the payload binds no key that the `LaunchRequest` decoder
resolves to the injected `Session` or `Context` fields. -/
def noSessionContextKeys (j : Json) : Bool :=
  match j with
  | .obj fs => fs.all fun kv =>
      !(launchFieldOf kv.1 == some LaunchField.sessionField) &&
      !(launchFieldOf kv.1 == some LaunchField.contextField)
  | _ => true

/-- The Go zero value of `CommonRequest`. -/
def zeroCommon : CommonRequest :=
  { type := "", requestID := "", timestamp := "", locale := "",
    session := none, context := none }

/-- The Go zero value of `LaunchRequest`, a freshly allocated target
variant. -/
def zeroLaunch : LaunchRequest := { commonRequest := zeroCommon }

/-- A concrete, non-trivial session for the sample envelopes. -/
def sampleSession : Session :=
  { new := true, sessionID := "sess-1",
    attributes := [("visits", Json.num 3)],
    application := { applicationID := "amzn1.ask.skill.1" },
    user := { userID := "amzn1.ask.account.1", accessToken := "" } }

/-- A concrete, non-trivial context for the sample envelopes. -/
def sampleContext : Context :=
  { system :=
      { apiAccessToken := "api-token", apiEndpoint := "https://api.amazonalexa.com",
        application := { applicationID := "amzn1.ask.skill.1" },
        device := { deviceID := "device-1", supportedInterfaces := [] },
        user := { userID := "amzn1.ask.account.1", accessToken := "" } },
    audioPlayer := { token := "", offsetInMilliseconds := 0, playerActivity := "IDLE" } }

/-- Envelope whose request payload is a JSON string — not an object, so
it cannot match any variant's shape. -/
def strPayloadEnv : RequestEnvelope :=
  { version := "1.0", session := sampleSession, context := sampleContext,
    request := Json.str "not an object" }

/-- Envelope whose request payload is JSON `null` — not a
`map[string]interface` value, so `verifyTimestamp`'s type assertion
panics on it. -/
def nullPayloadEnv : RequestEnvelope :=
  { version := "1.0", session := sampleSession, context := sampleContext,
    request := Json.null }

/-- Envelope whose payload decodes into `LaunchRequest` without error
but binds the wire key `Session` to null. -/
def sessionNullEnv : RequestEnvelope :=
  { version := "1.0", session := sampleSession, context := sampleContext,
    request := Json.obj [("type", Json.str "LaunchRequest"), ("Session", Json.null)] }

/-- Envelope whose payload binds both `Session` and `Context` to null. -/
def sessionContextNullEnv : RequestEnvelope :=
  { version := "1.0", session := sampleSession, context := sampleContext,
    request := Json.obj
      [("type", Json.str "LaunchRequest"),
       ("Session", Json.null), ("Context", Json.null)] }

/-- A well-formed launch-request envelope. -/
def launchEnv : RequestEnvelope :=
  { version := "1.0", session := sampleSession, context := sampleContext,
    request := Json.obj
      [("type", Json.str "LaunchRequest"),
       ("requestId", Json.str "req-1"),
       ("timestamp", Json.str "2020-01-01T00:00:00Z"),
       ("locale", Json.str "en-US")] }

/-! ## Lemmas about the `LaunchRequest` field fold -/

theorem launchStep_session_eq (k : String) (v : Json) (r : LaunchRequest)
    (h : launchFieldOf k ≠ some LaunchField.sessionField) :
    (launchStep k v r).2.commonRequest.session = r.commonRequest.session := by
  unfold launchStep
  cases hf : launchFieldOf k with
  | none => rfl
  | some f => cases f <;> first | rfl | exact absurd hf h

theorem launchStep_context_eq (k : String) (v : Json) (r : LaunchRequest)
    (h : launchFieldOf k ≠ some LaunchField.contextField) :
    (launchStep k v r).2.commonRequest.context = r.commonRequest.context := by
  unfold launchStep
  cases hf : launchFieldOf k with
  | none => rfl
  | some f => cases f <;> first | rfl | exact absurd hf h

theorem unmarshalLaunchFields_session_eq (fs : List (String × Json)) :
    ∀ r : LaunchRequest,
    (∀ kv ∈ fs, launchFieldOf kv.1 ≠ some LaunchField.sessionField) →
    (unmarshalLaunchFields fs r).2.commonRequest.session = r.commonRequest.session := by
  induction fs with
  | nil => intro r _; rfl
  | cons kv rest ih =>
    intro r h
    obtain ⟨k, v⟩ := kv
    simp only [unmarshalLaunchFields]
    rw [ih _ fun kv hkv => h kv (List.mem_cons_of_mem _ hkv),
        launchStep_session_eq k v r (h (k, v) (List.mem_cons_self _ _))]

theorem unmarshalLaunchFields_context_eq (fs : List (String × Json)) :
    ∀ r : LaunchRequest,
    (∀ kv ∈ fs, launchFieldOf kv.1 ≠ some LaunchField.contextField) →
    (unmarshalLaunchFields fs r).2.commonRequest.context = r.commonRequest.context := by
  induction fs with
  | nil => intro r _; rfl
  | cons kv rest ih =>
    intro r h
    obtain ⟨k, v⟩ := kv
    simp only [unmarshalLaunchFields]
    rw [ih _ fun kv hkv => h kv (List.mem_cons_of_mem _ hkv),
        launchStep_context_eq k v r (h (k, v) (List.mem_cons_self _ _))]

theorem launchStep_session_null (k : String) (r : LaunchRequest)
    (h : launchFieldOf k = some LaunchField.sessionField) :
    (launchStep k Json.null r).2.commonRequest.session = none := by
  unfold launchStep
  rw [h]
  rfl

theorem unmarshalLaunchFields_session_none (fs : List (String × Json)) :
    ∀ r : LaunchRequest,
    (∀ kv ∈ fs, launchFieldOf kv.1 = some LaunchField.sessionField → kv.2.isNull = true) →
    r.commonRequest.session = none →
    (unmarshalLaunchFields fs r).2.commonRequest.session = none := by
  induction fs with
  | nil => intro r _ hr; exact hr
  | cons kv rest ih =>
    intro r h hr
    obtain ⟨k, v⟩ := kv
    simp only [unmarshalLaunchFields]
    refine ih _ (fun kv hkv => h kv (List.mem_cons_of_mem _ hkv)) ?_
    by_cases hk : launchFieldOf k = some LaunchField.sessionField
    · have hv : v = Json.null := by
        have := h (k, v) (List.mem_cons_self _ _) hk
        cases v <;> simp [Json.isNull] at this ⊢
      rw [hv]
      exact launchStep_session_null k r hk
    · rw [launchStep_session_eq k v r hk]
      exact hr

theorem unmarshalLaunchFields_session_none_of_mem (fs : List (String × Json)) :
    ∀ r : LaunchRequest,
    (∀ kv ∈ fs, launchFieldOf kv.1 = some LaunchField.sessionField → kv.2.isNull = true) →
    (∃ kv ∈ fs, launchFieldOf kv.1 = some LaunchField.sessionField) →
    (unmarshalLaunchFields fs r).2.commonRequest.session = none := by
  induction fs with
  | nil => intro r _ hex; exact absurd hex (by simp)
  | cons kv rest ih =>
    intro r h hex
    obtain ⟨k, v⟩ := kv
    by_cases hk : launchFieldOf k = some LaunchField.sessionField
    · simp only [unmarshalLaunchFields]
      refine unmarshalLaunchFields_session_none rest _
        (fun kv hkv => h kv (List.mem_cons_of_mem _ hkv)) ?_
      have hv : v = Json.null := by
        have := h (k, v) (List.mem_cons_self _ _) hk
        cases v <;> simp [Json.isNull] at this ⊢
      rw [hv]
      exact launchStep_session_null k r hk
    · simp only [unmarshalLaunchFields]
      refine ih _ (fun kv hkv => h kv (List.mem_cons_of_mem _ hkv)) ?_
      rcases hex with ⟨kv1, hkv1, hf1⟩
      rcases List.mem_cons.mp hkv1 with h1 | h1
      · subst h1; exact absurd hf1 hk
      · exact ⟨kv1, h1, hf1⟩

theorem noSessionContextKeys_spec (fs : List (String × Json))
    (h : noSessionContextKeys (Json.obj fs) = true) :
    ∀ kv ∈ fs, launchFieldOf kv.1 ≠ some LaunchField.sessionField ∧
               launchFieldOf kv.1 ≠ some LaunchField.contextField := by
  intro kv hkv
  have := List.all_eq_true.mp h kv hkv
  constructor <;> intro hc <;> rw [hc] at this <;> simp at this

/-! ## Claim C1 -/

/-- Claim C1, counterexample: the envelope `strPayloadEnv` carries a
payload (a JSON string) that does not match the `LaunchRequest` shape;
`getTypedRequest` does return an error, but the target variant is NOT
left unmodified: its injected `Session` field has been set to the
envelope's session (it was `none` in the fresh target), so a
partially-populated object is produced. -/
theorem c1Counterexample :
    (getTypedRequest strPayloadEnv zeroLaunch).1.isSome = true ∧
    (getTypedRequest strPayloadEnv zeroLaunch).2.commonRequest.session =
      some strPayloadEnv.session ∧
    (getTypedRequest strPayloadEnv zeroLaunch).2.commonRequest.context =
      some strPayloadEnv.context ∧
    zeroLaunch.commonRequest.session = none :=
  ⟨rfl, rfl, rfl, rfl⟩

/-- Claim C1, amended: a failing decode does not leave the target
variant unmodified. For every envelope and target: (a) if the payload
is neither a JSON object nor null, `getTypedRequest` returns an error
and the target is exactly the input object with the envelope's
`Context` and `Session` injected into its `CommonRequest` (the
injection happens before the failing decode); (b) whenever the decode
returns an error and the payload binds no wire key resolving to the
untagged `Session`/`Context` fields, the returned object still carries
the injected `Session` and `Context`, equal to the envelope's — a
partially-populated object, not an untouched one. (Payloads that do
bind those keys can additionally overwrite the injections, as the C3
and C5 counterexamples show.) -/
theorem c1Theorem (env : RequestEnvelope) (obj : LaunchRequest) :
    (isPrimitivePayload env.request = true →
      (getTypedRequest env obj).1.isSome = true ∧
      (getTypedRequest env obj).2 =
        { commonRequest :=
            (obj.commonRequest.setContext env.context).setSession env.session }) ∧
    ((getTypedRequest env obj).1.isSome = true →
      noSessionContextKeys env.request = true →
      (getTypedRequest env obj).2.commonRequest.session = some env.session ∧
      (getTypedRequest env obj).2.commonRequest.context = some env.context) := by
  constructor
  · intro h
    unfold getTypedRequest unmarshalLaunch
    cases hreq : env.request with
    | obj fields => rw [hreq] at h; simp [isPrimitivePayload] at h
    | null => rw [hreq] at h; simp [isPrimitivePayload] at h
    | bool b => exact ⟨rfl, rfl⟩
    | num n => exact ⟨rfl, rfl⟩
    | str s => exact ⟨rfl, rfl⟩
    | arr xs => exact ⟨rfl, rfl⟩
  · intro herr hkeys
    unfold getTypedRequest unmarshalLaunch
    cases hreq : env.request with
    | obj fields =>
      rw [hreq] at hkeys
      have hspec := noSessionContextKeys_spec fields hkeys
      constructor
      · rw [unmarshalLaunchFields_session_eq fields _ fun kv hkv => (hspec kv hkv).1]
        rfl
      · rw [unmarshalLaunchFields_context_eq fields _ fun kv hkv => (hspec kv hkv).2]
        rfl
    | null => exact ⟨rfl, rfl⟩
    | bool b => exact ⟨rfl, rfl⟩
    | num n => exact ⟨rfl, rfl⟩
    | str s => exact ⟨rfl, rfl⟩
    | arr xs => exact ⟨rfl, rfl⟩

/-- Envelope whose payload is an object that fails to decode into
`LaunchRequest` (the `type` field is a number, not a string) without
binding any `Session`/`Context` wire key. -/
def typeMismatchEnv : RequestEnvelope :=
  { version := "1.0", session := sampleSession, context := sampleContext,
    request := Json.obj [("type", Json.num 123)] }

/-- Claim C1, witness: part (a) of the amended theorem applied to the
concrete string-payload envelope `strPayloadEnv`, and part (b) applied
to the concrete failing object payload `typeMismatchEnv` — both with a
fresh `LaunchRequest`; each hypothesis discharged by evaluation. -/
theorem c1Witness :
    ((getTypedRequest strPayloadEnv zeroLaunch).1.isSome = true ∧
     (getTypedRequest strPayloadEnv zeroLaunch).2 =
       { commonRequest :=
           (zeroLaunch.commonRequest.setContext strPayloadEnv.context).setSession
             strPayloadEnv.session }) ∧
    ((getTypedRequest typeMismatchEnv zeroLaunch).2.commonRequest.session =
       some typeMismatchEnv.session ∧
     (getTypedRequest typeMismatchEnv zeroLaunch).2.commonRequest.context =
       some typeMismatchEnv.context) :=
  ⟨(c1Theorem strPayloadEnv zeroLaunch).1 rfl,
   (c1Theorem typeMismatchEnv zeroLaunch).2 rfl rfl⟩

/-! ## Claim C2 -/

/-- Claim C2, counterexample: on the envelope whose `Request` payload
is JSON null (not a `map[string]interface` value), `verifyTimestamp`'s
unchecked type assertion panics — modelled as `none` — instead of
returning `false`. -/
theorem c2Counterexample :
    verifyTimestamp nullPayloadEnv 0 = none ∧
    verifyTimestamp nullPayloadEnv 0 ≠ some false :=
  ⟨rfl, by decide⟩

/-- Claim C2, amended: `verifyTimestamp` returns a boolean (rather than
terminating the process) exactly when the `Request` payload is a JSON
object whose `timestamp` entry is a string; for every other envelope —
payload not an object, `timestamp` key missing, or `timestamp` not a
string — the unchecked type assertion
`Request.(map[string]interface{\x7d})["timestamp"].(string)` panics,
which is an uncontrolled termination of the process. -/
theorem c2Theorem (env : RequestEnvelope) (nowNs : Int) :
    (verifyTimestamp env nowNs).isSome = hasStringTimestamp env.request := by
  unfold verifyTimestamp hasStringTimestamp
  cases hreq : env.request with
  | obj fields =>
    cases h : mapGet fields "timestamp" with
    | none => simp only [h]; rfl
    | some v => cases v <;> simp only [h] <;> rfl
  | null => rfl
  | bool b => rfl
  | num n => rfl
  | str s => rfl
  | arr xs => rfl

/-! ## Claim C3 -/

/-- Claim C3, counterexample: the envelope `sessionNullEnv` has a
payload that matches the `LaunchRequest` shape (`getTypedRequest`
succeeds on it, returning no error) but binds the wire key `Session` to
null; the decoded variant's `Session` field is null rather than the
envelope's session, because the wire field overwrote the injected
reference. -/
theorem c3Counterexample :
    (getTypedRequest sessionNullEnv zeroLaunch).1 = none ∧
    (getTypedRequest sessionNullEnv zeroLaunch).2.commonRequest.session = none :=
  ⟨rfl, rfl⟩

/-- Claim C3, amended: for every envelope whose `Request` payload
matches the target variant's shape (the decode returns no error) AND
binds no wire key that resolves to the injected `Session`/`Context`
fields, `getTypedRequest` leaves the variant's `Session` and `Context`
non-null and equal by value to the envelope's session and context. -/
theorem c3Theorem (env : RequestEnvelope) (obj : LaunchRequest)
    (hok : (getTypedRequest env obj).1 = none)
    (hkeys : noSessionContextKeys env.request = true) :
    (getTypedRequest env obj).2.commonRequest.session = some env.session ∧
    (getTypedRequest env obj).2.commonRequest.context = some env.context := by
  unfold getTypedRequest unmarshalLaunch at hok ⊢
  cases hreq : env.request with
  | obj fields =>
    rw [hreq] at hkeys
    have hspec := noSessionContextKeys_spec fields hkeys
    constructor
    · rw [unmarshalLaunchFields_session_eq fields _ fun kv hkv => (hspec kv hkv).1]
      rfl
    · rw [unmarshalLaunchFields_context_eq fields _ fun kv hkv => (hspec kv hkv).2]
      rfl
  | null => exact ⟨rfl, rfl⟩
  | bool b => rw [hreq] at hok; exact absurd hok (by simp)
  | num n => rw [hreq] at hok; exact absurd hok (by simp)
  | str s => rw [hreq] at hok; exact absurd hok (by simp)
  | arr xs => rw [hreq] at hok; exact absurd hok (by simp)

/-- Claim C3, witness: the amended theorem applied to the well-formed
concrete envelope `launchEnv` and a fresh `LaunchRequest`. -/
theorem c3Witness :
    (getTypedRequest launchEnv zeroLaunch).2.commonRequest.session =
      some launchEnv.session ∧
    (getTypedRequest launchEnv zeroLaunch).2.commonRequest.context =
      some launchEnv.context :=
  c3Theorem launchEnv zeroLaunch rfl rfl

/-! ## Claim C5 -/

/-- Claim C5, counterexample: on the envelope `sessionContextNullEnv`,
whose wire payload contains fields named `Session` and `Context`, the
final object does NOT retain the injected Session/Context pointers:
both come out null, because `getTypedRequest` injects them BEFORE
deserializing the payload, and the wire fields then overwrite them. -/
theorem c5Counterexample :
    (getTypedRequest sessionContextNullEnv zeroLaunch).2.commonRequest.session = none ∧
    (getTypedRequest sessionContextNullEnv zeroLaunch).2.commonRequest.context = none :=
  ⟨rfl, rfl⟩

/-- Claim C5, amended: `getTypedRequest` injects the envelope's Context
and Session FIRST and only then re-serializes and deserializes the
generic payload into the variant, so wire fields named `Session` or
`Context` overwrite the injected references instead of being shadowed
by them: for every envelope whose object payload has at least one key
resolving to the `Session` field and all such keys bound to null, the
final object's `Session` is null, not the injected reference. -/
theorem c5Theorem (env : RequestEnvelope) (obj : LaunchRequest)
    (fs : List (String × Json)) (hreq : env.request = Json.obj fs)
    (hnull : ∀ kv ∈ fs, launchFieldOf kv.1 = some LaunchField.sessionField →
      kv.2.isNull = true)
    (hmem : ∃ kv ∈ fs, launchFieldOf kv.1 = some LaunchField.sessionField) :
    (getTypedRequest env obj).2.commonRequest.session = none := by
  unfold getTypedRequest unmarshalLaunch
  rw [hreq]
  exact unmarshalLaunchFields_session_none_of_mem fs _ hnull hmem

/-- Claim C5, witness: the amended theorem applied to the concrete
envelope `sessionContextNullEnv`. -/
theorem c5Witness :
    (getTypedRequest sessionContextNullEnv zeroLaunch).2.commonRequest.session = none :=
  c5Theorem sessionContextNullEnv zeroLaunch
    [("type", Json.str "LaunchRequest"), ("Session", Json.null), ("Context", Json.null)]
    rfl (by decide) (by decide)

/-! ## Claim C4 -/

/-- Claim C10: the freshness check only bounds how old a timestamp may
be: for every envelope whose string timestamp parses to an instant
strictly in the future of the clock — arbitrarily far ahead —
`verifyTimestamp` returns true, since now minus the timestamp is then
negative and in particular below 30 seconds. -/
theorem c10Theorem (env : RequestEnvelope) (nowNs : Int)
    (fs : List (String × Json)) (s : String) (t : Int)
    (hreq : env.request = Json.obj fs)
    (hts : mapGet fs "timestamp" = some (Json.str s))
    (hp : parseTimestamp s = some t)
    (hfut : nowNs < t) :
    verifyTimestamp env nowNs = some true := by
  unfold verifyTimestamp
  rw [hreq]
  simp only [hts]
  unfold timestampFresh
  rw [hp]
  have hlt : nowNs - t < 30 * 1000000000 := by linarith
  exact congrArg some (decide_eq_true hlt)

/-- Claim C10, witness: a timestamp in the year 9999 (Unix second
253402300799) is accepted as fresh by a 2023 clock, about 7975 years
ahead of now. -/
theorem c10Witness :
    verifyTimestamp
      { launchEnv with
        request := Json.obj [("timestamp", Json.str "9999-12-31T23:59:59Z")] }
      1700000000000000000 = some true :=
  c10Theorem _ 1700000000000000000 _ "9999-12-31T23:59:59Z" 253402300799000000000
    rfl rfl (by decide) (by decide)

/-! ## Claim C6 -/

/-- Claim C6: for every response and every clearBehavior string,
`AddAudioPlayerClearQueueDirective` builds and appends a directive with
type `AudioPlayer.ClearQueue` and the caller-supplied clearBehavior
unchanged, returns it, and never fails (it is a total function on all
strings); it emits exactly one diagnostic iff clearBehavior is neither
`CLEAR_ENQUEUED` nor `CLEAR_ALL` — in particular `CLEAR_ALL` yields no
diagnostic and `BOGUS` yields exactly one. -/
theorem c6Theorem (r : Response) (clearBehavior : String) :
    (AddAudioPlayerClearQueueDirective r clearBehavior).2.1 =
      { type := "AudioPlayer.ClearQueue", clearBehavior := clearBehavior } ∧
    (AddAudioPlayerClearQueueDirective r clearBehavior).1.directives =
      r.directives ++
        [Directive.clearQueue
          { type := "AudioPlayer.ClearQueue", clearBehavior := clearBehavior }] ∧
    ((AddAudioPlayerClearQueueDirective r clearBehavior).2.2.length = 1 ↔
      ¬(clearBehavior = "CLEAR_ENQUEUED" ∨ clearBehavior = "CLEAR_ALL")) ∧
    (AddAudioPlayerClearQueueDirective r "CLEAR_ALL").2.2 = [] ∧
    (AddAudioPlayerClearQueueDirective r "BOGUS").2.2.length = 1 := by
  unfold AddAudioPlayerClearQueueDirective Response.addDirective
  refine ⟨rfl, rfl, ?_, by simp, by simp⟩
  by_cases h : clearBehavior ≠ "CLEAR_ENQUEUED" ∧ clearBehavior ≠ "CLEAR_ALL"
  · rw [if_pos h]
    simp only [List.length_singleton, true_iff]
    intro hc
    rcases hc with hc | hc <;> simp [hc] at h
  · rw [if_neg h]
    simp only [List.length_nil]
    constructor
    · intro hz; exact absurd hz (by decide)
    · intro hc
      exact absurd (fun hor => hc (by tauto)) (fun hn => h (by tauto))

/-! ## Claim C7 -/

/-- Claim C7: appending a Play, then a ClearQueue, then a Stop
directive to any response yields the response's directive sequence
extended by exactly those three directives, in exactly that order —
Play (`AudioPlayer.Play`), ClearQueue (`AudioPlayer.ClearQueue`), Stop
(`AudioPlayer.Stop`) — with no other directive added or removed. -/
theorem c7Theorem (r : Response) (playBehavior clearBehavior : String) :
    (AddAudioPlayerStopDirective
      (AddAudioPlayerClearQueueDirective
        (AddAudioPlayerPlayDirective r playBehavior).1 clearBehavior).1).1.directives =
    r.directives ++
      [Directive.play
        { type := "AudioPlayer.Play", playBehavior := playBehavior,
          audioItem := zeroAudioItem },
       Directive.clearQueue
        { type := "AudioPlayer.ClearQueue", clearBehavior := clearBehavior },
       Directive.stop { type := "AudioPlayer.Stop" }] := by
  unfold AddAudioPlayerStopDirective AddAudioPlayerClearQueueDirective
    AddAudioPlayerPlayDirective Response.addDirective
  simp

/-! ## Claim C8 -/

/-- Claim C8: for every url, token, expectedPreviousToken and offset, a
Play directive configured via `SetAudioItemStream`, marshalled to JSON
and unmarshalled back into a zero directive, reproduces the identical
url, token, expectedPreviousToken and offsetInMilliseconds values in
`audioItem.stream` (and the re-parse reports no error). This covers the
omitempty handling of `expectedPreviousToken`: an empty continuation
token is omitted on the wire and restored as the zero value. -/
theorem c8Theorem (playBehavior url token expectedPreviousToken : String)
    (offsetInMilliseconds : Int) :
    (unmarshalPlayDirective
      (marshalPlayDirective
        (SetAudioItemStream (AddAudioPlayerPlayDirective { directives := [] } playBehavior).2
          url token expectedPreviousToken offsetInMilliseconds))
      zeroPlayDirective).1 = none ∧
    (unmarshalPlayDirective
      (marshalPlayDirective
        (SetAudioItemStream (AddAudioPlayerPlayDirective { directives := [] } playBehavior).2
          url token expectedPreviousToken offsetInMilliseconds))
      zeroPlayDirective).2.audioItem.stream =
    { url := url, token := token,
      expectedPreviousToken := expectedPreviousToken,
      offsetInMilliseconds := offsetInMilliseconds } := by
  rcases eq_or_ne expectedPreviousToken "" with h | h
  · subst h
    exact ⟨rfl, rfl⟩
  · unfold SetAudioItemStream AddAudioPlayerPlayDirective marshalPlayDirective
      marshalAudioItem marshalStream
    simp only [if_neg h]
    exact ⟨rfl, rfl⟩

/-! ## Claim C9 -/

/-- Claim C9: for every Play directive, the chain
`m := d.SetAudioItemMetadata(title, subtitle); m.SetArtImage(desc)`
(with the returned metadata aliasing the directive's field, made
explicit in `metadataArtChain`) leaves the directive with
`audioItem.metadata.title = title`, `audioItem.metadata.subtitle =
subtitle` and `audioItem.metadata.art.contentDescription = desc`. -/
theorem c9Theorem (d : AudioPlayerPlayDirective) (title subtitle desc : String) :
    (metadataArtChain d title subtitle desc).audioItem.metadata =
      some { title := title, subtitle := subtitle,
             art := some { contentDescription := desc },
             backgroundImage := none } :=
  rfl

end Alexa
